import Mathlib

/-!
Verification of the fault-escalation and fsck repair-negotiation protocol
of bcachefs-tools, as defined by the macros in libbcachefs/error.h.

The macros are shallowly embedded as pure Lean functions.  Logging is
modelled as the list of emitted message strings; the rate limiter is
modelled as a per-call oracle deciding whether the log emission is allowed
(its internal algorithm is an external collaborator); the interactive
ask_yn prompt is modelled by an explicit answer parameter; the per-fs bit
flag BCH_FS_FSCK_FIXED_ERRORS is modelled as a boolean field; the
"goto fsck_err" abort with its ret assignment is modelled as the error
branch of an Except value.
-/

namespace BchError

/-- Hosting environment: the header compiles one of two bodies for
fsck_err_should_fix, selected by ifdef KERNEL. -/
inductive Env where
  | kernel
  | user
deriving DecidableEq, Repr

/-- enum fsck_err_opts from error.h: FSCK_ERR_NO = 0, FSCK_ERR_YES = 1,
FSCK_ERR_ASK = 2. -/
inductive fsck_err_opts where
  | FSCK_ERR_NO
  | FSCK_ERR_YES
  | FSCK_ERR_ASK
deriving DecidableEq, Repr

/-- The numeric value of the C enum constant. -/
def fsck_err_opts.toNat : fsck_err_opts → Nat
  | .FSCK_ERR_NO => 0
  | .FSCK_ERR_YES => 1
  | .FSCK_ERR_ASK => 2

def BCH_FSCK_OK : Nat := 0
def BCH_FSCK_ERRORS_NOT_FIXED : Nat := 1
def BCH_FSCK_REPAIR_UNIMPLEMENTED : Nat := 2
def BCH_FSCK_REPAIR_IMPOSSIBLE : Nat := 3
def BCH_FSCK_UNKNOWN_VERSION : Nat := 4

/-- The per-filesystem flags word, restricted to the one bit this header
touches: set_bit(BCH_FS_FSCK_FIXED_ERRORS, and c flags) is modelled as
setting this boolean. -/
structure bch_fs_flags where
  fsck_fixed_errors : Bool
deriving DecidableEq, Repr

/-- fsck_err_should_fix(c, msg, ...): decides the fix and emits one message.
Kernel body: bool fix = c opts fix_errors (any nonzero enum value converts
to true) and bch_err(c, msg ", %sfixing", ..., fix ? "" : "not ").
Userspace body: switch on c opts fix_errors; ASK prints msg ": fix?" and
asks ask_yn() (here: the answer parameter); YES logs msg ", fixing" with
fix = true; NO logs msg with fix = false.
Returns the fix decision together with the emitted messages. -/
def fsck_err_should_fix (env : Env) (fix_errors : fsck_err_opts)
    (answer : Bool) (msg : String) : Bool × List String :=
  match env with
  | .kernel =>
    let fix := fix_errors.toNat != 0
    (fix, [msg ++ ", " ++ (if fix then "" else "not ") ++ "fixing"])
  | .user =>
    match fix_errors with
    | .FSCK_ERR_ASK => (answer, [msg ++ ": fix?"])
    | .FSCK_ERR_YES => (true, [msg ++ ", fixing"])
    | .FSCK_ERR_NO => (false, [msg])

instance {e a : Type} [DecidableEq e] [DecidableEq a] : DecidableEq (Except e a) := fun x y =>
  match x, y with
  | .ok v, .ok w =>
    if h : v = w then isTrue (by rw [h]) else isFalse (by intro hh; cases hh; exact h rfl)
  | .ok _, .error _ => isFalse (by intro hh; cases hh)
  | .error _, .ok _ => isFalse (by intro hh; cases hh)
  | .error v, .error w =>
    if h : v = w then isTrue (by rw [h]) else isFalse (by intro hh; cases hh; exact h rfl)

/-- The full result of one fsck_err negotiation: emitted log, updated
flags, the internal fix decision, and what the statement-expression macro
evaluates to at the call site: Except.ok fix on normal completion, or
Except.error ret when the goto fsck_err abort path fires. -/
structure FsckErrResult where
  log : List String
  flags : bch_fs_flags
  fixed : Bool
  result : Except Nat Bool
deriving DecidableEq, Repr

/-- Outcome of a negotiation: Fixed when the fix decision was true. -/
inductive Outcome where
  | Fixed
  | NotFixed
deriving DecidableEq, Repr

def FsckErrResult.outcome (r : FsckErrResult) : Outcome :=
  if r.fixed then .Fixed else .NotFixed

/-- fsck_err(c, can_fix, can_ignore, nofix_msg, msg, ...):
if can_fix, fix comes from fsck_err_should_fix; else log
msg " (" nofix_msg ")" and fix = false.  If fix, set_bit
BCH_FS_FSCK_FIXED_ERRORS.  If not fix and not can_ignore, log
"Unable to continue, halting", set ret = BCH_FSCK_ERRORS_NOT_FIXED and
goto fsck_err (the Except.error branch).  Otherwise the macro evaluates
to fix. -/
def fsck_err (env : Env) (fix_errors : fsck_err_opts) (answer : Bool)
    (can_fix can_ignore : Bool) (nofix_msg msg : String)
    (flags : bch_fs_flags) : FsckErrResult :=
  let s := if can_fix then fsck_err_should_fix env fix_errors answer msg
           else (false, [msg ++ " (" ++ nofix_msg ++ ")"])
  let fix := s.1
  let flags2 : bch_fs_flags := ⟨flags.fsck_fixed_errors || fix⟩
  if !fix && !can_ignore then
    { log := s.2 ++ ["Unable to continue, halting"], flags := flags2,
      fixed := fix, result := .error BCH_FSCK_ERRORS_NOT_FIXED }
  else
    { log := s.2, flags := flags2, fixed := fix, result := .ok fix }

/-- fsck_err_on(cond, c, can_fix, can_ignore, nofix_msg, ...):
cond ? fsck_err(...) : false. -/
def fsck_err_on (cond : Bool) (env : Env) (fix_errors : fsck_err_opts)
    (answer : Bool) (can_fix can_ignore : Bool) (nofix_msg msg : String)
    (flags : bch_fs_flags) : FsckErrResult :=
  if cond then fsck_err env fix_errors answer can_fix can_ignore nofix_msg msg flags
  else { log := [], flags := flags, fixed := false, result := .ok false }

/-- unfixable_fsck_err_on(cond, c, ...) =
fsck_err_on(cond, c, false, true, "repair unimplemented", ...). -/
def unfixable_fsck_err_on (cond : Bool) (env : Env)
    (fix_errors : fsck_err_opts) (answer : Bool) (msg : String)
    (flags : bch_fs_flags) : FsckErrResult :=
  fsck_err_on cond env fix_errors answer false true "repair unimplemented" msg flags

/-- need_fsck_err_on(cond, c, ...) =
fsck_err_on(cond, c, false, true, "run fsck to correct", ...). -/
def need_fsck_err_on (cond : Bool) (env : Env)
    (fix_errors : fsck_err_opts) (answer : Bool) (msg : String)
    (flags : bch_fs_flags) : FsckErrResult :=
  fsck_err_on cond env fix_errors answer false true "run fsck to correct" msg flags

/-- mustfix_fsck_err(c, ...) = fsck_err(c, true, false, "not fixing", ...). -/
def mustfix_fsck_err (env : Env) (fix_errors : fsck_err_opts)
    (answer : Bool) (msg : String) (flags : bch_fs_flags) : FsckErrResult :=
  fsck_err env fix_errors answer true false "not fixing" msg flags

/-- mustfix_fsck_err_on(cond, c, ...) =
fsck_err_on(cond, c, true, false, "not fixing", ...). -/
def mustfix_fsck_err_on (cond : Bool) (env : Env)
    (fix_errors : fsck_err_opts) (answer : Bool) (msg : String)
    (flags : bch_fs_flags) : FsckErrResult :=
  fsck_err_on cond env fix_errors answer true false "not fixing" msg flags

/-- fsck_err_on(cond, c, ...) with the best-effort triple =
fsck_err_on(cond, c, true, true, "not fixing", ...).  Named
best_effort_fsck_err_on here because the C macro is itself called
fsck_err_on, shadowing the generic one. -/
def best_effort_fsck_err_on (cond : Bool) (env : Env)
    (fix_errors : fsck_err_opts) (answer : Bool) (msg : String)
    (flags : bch_fs_flags) : FsckErrResult :=
  fsck_err_on cond env fix_errors answer true true "not fixing" msg flags

/-- A device handle: the identifier of the owning filesystem (the C
field ca fs) and the device name. -/
structure bch_dev where
  fs : Nat
  name : String
deriving DecidableEq, Repr

/-- Modelled from the spec: bch2_fatal_error is only declared in error.h
(its body lives outside src).  Per the spec, setFatal transitions the
given filesystem to the fatal state, idempotently and monotonically.
The state is the list of filesystem identifiers already marked fatal. -/
def bch2_fatal_error (c : Nat) (fatal : List Nat) : List Nat :=
  if c ∈ fatal then fatal else c :: fatal

/-- bch2_dev_fatal_error(ca, ...): bch_err(ca, ...) then
bch2_fatal_error(c).  The macro body names the variable c, which is NOT a
parameter of this macro: it denotes whatever variable called c is in
scope at the call site.  That call-site filesystem is the explicit
argument callSiteC here. -/
def bch2_dev_fatal_error (ca : bch_dev) (callSiteC : Nat) (msg : String)
    (fatal : List Nat) : List String × List Nat :=
  ([msg], bch2_fatal_error callSiteC fatal)

/-- bch2_dev_fatal_io_error(ca, fmt, ...): printk_ratelimited of
"fatal IO error on %s for " fmt with the device name, then
bch2_fatal_error(ca fs).  The rate limiter decision is the allow
oracle; the state update is unconditional. -/
def bch2_dev_fatal_io_error (allow : Bool) (ca : bch_dev) (fmt : String)
    (fatal : List Nat) : List String × List Nat :=
  ((if allow then ["fatal IO error on " ++ ca.name ++ " for " ++ fmt] else []),
   bch2_fatal_error ca.fs fatal)

/-- Result of a LogicBug report: the emitted log and whether the process
was terminated (BUG() never returns; terminated = true means control
never comes back to the caller). -/
structure BugResult where
  log : List String
  terminated : Bool
deriving DecidableEq, Repr

/-- bch2_fs_bug(c, ...): bch_err(c, ...) then BUG(). -/
def bch2_fs_bug (msg : String) : BugResult :=
  { log := [msg], terminated := true }

/-- bch2_fs_bug_on(cond, c, ...): if (cond) bch2_fs_bug(c, ...). -/
def bch2_fs_bug_on (cond : Bool) (msg : String) : BugResult :=
  if cond then bch2_fs_bug msg else { log := [], terminated := false }

/-- Per-device error-accounting state: the number of degraded-state
updates (calls to bch2_nonfatal_io_error) performed on the device. -/
structure bch_dev_state where
  degraded_updates : Nat
deriving DecidableEq, Repr

/-- Modelled from the spec: bch2_nonfatal_io_error is only declared in
error.h ("Does the error handling without logging a message"); its body
lives outside src.  Per the spec it performs the degraded-state update
for the device; we count those updates. -/
def bch2_nonfatal_io_error (d : bch_dev_state) : bch_dev_state :=
  ⟨d.degraded_updates + 1⟩

/-- bch2_dev_nonfatal_io_error(ca, fmt, ...): printk_ratelimited of
"IO error on %s for " fmt (the allow oracle is the rate limiter
decision), then bch2_nonfatal_io_error(ca) unconditionally. -/
def bch2_dev_nonfatal_io_error (allow : Bool) (ca : bch_dev) (fmt : String)
    (d : bch_dev_state) : List String × bch_dev_state :=
  ((if allow then ["IO error on " ++ ca.name ++ " for " ++ fmt] else []),
   bch2_nonfatal_io_error d)

/-- bch2_dev_nonfatal_io_err_on(cond, ca, ...): bool ret = cond; if ret
then bch2_dev_nonfatal_io_error; evaluates to ret. -/
def bch2_dev_nonfatal_io_err_on (cond allow : Bool) (ca : bch_dev)
    (fmt : String) (d : bch_dev_state) :
    (List String × bch_dev_state) × Bool :=
  if cond then (bch2_dev_nonfatal_io_error allow ca fmt d, true)
  else (([], d), false)

/-- A sequence of N invocations of bch2_dev_nonfatal_io_error on the same
device: each entry carries that invocation's rate-limiter decision and
format string. -/
def runNonfatalReports (ca : bch_dev) (reports : List (Bool × String))
    (d : bch_dev_state) : List String × bch_dev_state :=
  match reports with
  | [] => ([], d)
  | (allow, fmt) :: rest =>
    let r1 := bch2_dev_nonfatal_io_error allow ca fmt d
    let r2 := runNonfatalReports ca rest r1.2
    (r1.1 ++ r2.1, r2.2)

/-! ## Theorems -/

/-- C1 counterexample: the claim asserts that, in both hosting
environments, policy Ask emits the prompt and yields Fixed if and only if
the answer is yes.  In the kernel environment with policy Ask, answer no,
condition true and fixable true, the code instead converts the nonzero
enum value FSCK_ERR_ASK to the boolean true: the outcome is Fixed, the
emitted message is "m, fixing", and no prompt "m: fix?" is emitted. -/
theorem C1_counterexample :
    (fsck_err .kernel .FSCK_ERR_ASK false true true "not fixing" "m" ⟨false⟩).outcome
        = Outcome.Fixed ∧
    (fsck_err .kernel .FSCK_ERR_ASK false true true "not fixing" "m" ⟨false⟩).log
        = ["m, fixing"] ∧
    ¬ ((fsck_err .kernel .FSCK_ERR_ASK false true true "not fixing" "m" ⟨false⟩).outcome
        = Outcome.NotFixed ∧
       (fsck_err .kernel .FSCK_ERR_ASK false true true "not fixing" "m" ⟨false⟩).log
        = ["m: fix?"]) := by
  decide

/-- C1 amended: with condition true and fixable true, the policy branch is
as specified in the userspace environment (Always: message with ", fixing"
suffix and outcome Fixed; Never: bare message and outcome NotFixed; Ask:
prompt "msg: fix?" and outcome Fixed exactly when the answer is yes).  In
the kernel environment the policy value is read as a boolean and there is
no prompt: Never yields NotFixed with message "msg, not fixing", while
Always and Ask both yield Fixed with message "msg, fixing", the answer
being ignored.  In both environments the full negotiation takes its fix
decision and first message from this branch. -/
theorem C1_policy_branch (msg : String) (a : Bool) :
    fsck_err_should_fix .user .FSCK_ERR_YES a msg = (true, [msg ++ ", fixing"]) ∧
    fsck_err_should_fix .user .FSCK_ERR_NO a msg = (false, [msg]) ∧
    fsck_err_should_fix .user .FSCK_ERR_ASK a msg = (a, [msg ++ ": fix?"]) ∧
    fsck_err_should_fix .kernel .FSCK_ERR_YES a msg = (true, [msg ++ ", fixing"]) ∧
    fsck_err_should_fix .kernel .FSCK_ERR_NO a msg = (false, [msg ++ ", not fixing"]) ∧
    fsck_err_should_fix .kernel .FSCK_ERR_ASK a msg = (true, [msg ++ ", fixing"]) ∧
    (∀ (env : Env) (fe : fsck_err_opts) (ci : Bool) (nofix : String)
        (flags : bch_fs_flags),
      (fsck_err env fe a true ci nofix msg flags).fixed
          = (fsck_err_should_fix env fe a msg).1 ∧
      (fsck_err env fe a true ci nofix msg flags).outcome
          = (if (fsck_err_should_fix env fe a msg).1 then Outcome.Fixed
             else Outcome.NotFixed) ∧
      (fsck_err env fe a true ci nofix msg flags).log.head?
          = (fsck_err_should_fix env fe a msg).2.head?) := by
  refine ⟨?_, ?_, ?_, ?_, ?_, ?_, ?_⟩
  case _ => simp [fsck_err_should_fix]
  case _ => simp [fsck_err_should_fix]
  case _ => simp [fsck_err_should_fix]
  case _ => simp [fsck_err_should_fix, fsck_err_opts.toNat, String.append_assoc]
  case _ => simp [fsck_err_should_fix, fsck_err_opts.toNat, String.append_assoc]
  case _ => simp [fsck_err_should_fix, fsck_err_opts.toNat, String.append_assoc]
  intro env fe ci nofix flags
  cases env <;> cases fe <;> cases a <;> cases ci <;>
    simp [fsck_err, fsck_err_should_fix, fsck_err_opts.toNat, FsckErrResult.outcome]

/-- C2: a negotiation whose outcome is NotFixed with ignorable = false
emits "Unable to continue, halting" as its last message, sets the pass
result to BCH_FSCK_ERRORS_NOT_FIXED and aborts via goto fsck_err (the
Except.error branch); in particular Mandatory-fix (mustfix) under policy
Never always takes this abort path, in either environment. -/
theorem C2_not_fixed_not_ignorable_aborts (env : Env) (fe : fsck_err_opts)
    (a can_fix : Bool) (nofix msg : String) (flags : bch_fs_flags)
    (h : (fsck_err env fe a can_fix false nofix msg flags).outcome = Outcome.NotFixed) :
    (fsck_err env fe a can_fix false nofix msg flags).result
        = Except.error BCH_FSCK_ERRORS_NOT_FIXED ∧
    (fsck_err env fe a can_fix false nofix msg flags).log.getLast?
        = some "Unable to continue, halting" ∧
    (∀ (env2 : Env) (a2 : Bool) (msg2 : String) (flags2 : bch_fs_flags),
      (mustfix_fsck_err env2 .FSCK_ERR_NO a2 msg2 flags2).outcome = Outcome.NotFixed ∧
      (mustfix_fsck_err env2 .FSCK_ERR_NO a2 msg2 flags2).result
          = Except.error BCH_FSCK_ERRORS_NOT_FIXED) := by
  refine ⟨?_, ?_, ?_⟩
  case _ =>
    revert h
    cases env <;> cases fe <;> cases a <;> cases can_fix <;>
      simp [fsck_err, fsck_err_should_fix, fsck_err_opts.toNat, FsckErrResult.outcome]
  case _ =>
    revert h
    cases env <;> cases fe <;> cases a <;> cases can_fix <;>
      simp [fsck_err, fsck_err_should_fix, fsck_err_opts.toNat, FsckErrResult.outcome]
  intro env2 a2 msg2 flags2
  cases env2 <;> cases a2 <;>
    simp [mustfix_fsck_err, fsck_err, fsck_err_should_fix, fsck_err_opts.toNat,
      FsckErrResult.outcome]

/-- C2 witness: Mandatory-fix under policy Never in userspace has outcome
NotFixed, and the theorem yields the abort result at that input. -/
theorem C2_not_fixed_not_ignorable_aborts_witness :
    (fsck_err .user .FSCK_ERR_NO false true false "not fixing" "m" ⟨false⟩).outcome
        = Outcome.NotFixed ∧
    (fsck_err .user .FSCK_ERR_NO false true false "not fixing" "m" ⟨false⟩).result
        = Except.error BCH_FSCK_ERRORS_NOT_FIXED :=
  ⟨by decide,
   (C2_not_fixed_not_ignorable_aborts .user .FSCK_ERR_NO false true "not fixing" "m"
      ⟨false⟩ (by decide)).1⟩

/-- C3: when fixable is false the outcome is NotFixed for every policy and
either environment, and the first emitted message is the primary message
followed by the reason in parentheses; the Unfixable-but-tolerable mode
shows the reason "repair unimplemented" and, the mode being ignorable,
completes normally with no abort and unchanged flags. -/
theorem C3_unfixable_not_fixed (env : Env) (fe : fsck_err_opts) (a ci : Bool)
    (nofix msg : String) (flags : bch_fs_flags) :
    (fsck_err env fe a false ci nofix msg flags).outcome = Outcome.NotFixed ∧
    (fsck_err env fe a false ci nofix msg flags).log.head?
        = some (msg ++ " (" ++ nofix ++ ")") ∧
    unfixable_fsck_err_on true env fe a msg flags
        = ⟨[msg ++ " (repair unimplemented)"], flags, false, Except.ok false⟩ := by
  refine ⟨?_, ?_, ?_⟩
  case _ => cases ci <;> rfl
  case _ => cases ci <;> rfl
  cases flags with
  | mk b =>
    simp [unfixable_fsck_err_on, fsck_err_on, fsck_err, String.append_assoc]

/-- C4: the four named negotiation modes expand to the generic negotiator
with exactly the specified (fixable, ignorable, reason) triples, and the
fix/no-fix/abort behavior of each follows from its triple through the
negotiation algorithm: the two unfixable modes always yield NotFixed
without abort; Mandatory-fix yields Fixed under policy Always and aborts
with BCH_FSCK_ERRORS_NOT_FIXED under policy Never; Best-effort-fix yields
Fixed under Always and completes without abort under Never. -/
theorem C4_mode_table (cond : Bool) (env : Env) (fe : fsck_err_opts) (a : Bool)
    (msg : String) (flags : bch_fs_flags) :
    unfixable_fsck_err_on cond env fe a msg flags
        = fsck_err_on cond env fe a false true "repair unimplemented" msg flags ∧
    need_fsck_err_on cond env fe a msg flags
        = fsck_err_on cond env fe a false true "run fsck to correct" msg flags ∧
    mustfix_fsck_err env fe a msg flags
        = fsck_err env fe a true false "not fixing" msg flags ∧
    mustfix_fsck_err_on cond env fe a msg flags
        = fsck_err_on cond env fe a true false "not fixing" msg flags ∧
    best_effort_fsck_err_on cond env fe a msg flags
        = fsck_err_on cond env fe a true true "not fixing" msg flags ∧
    (unfixable_fsck_err_on true env fe a msg flags).outcome = Outcome.NotFixed ∧
    (unfixable_fsck_err_on true env fe a msg flags).result = Except.ok false ∧
    (need_fsck_err_on true env fe a msg flags).outcome = Outcome.NotFixed ∧
    (need_fsck_err_on true env fe a msg flags).result = Except.ok false ∧
    (mustfix_fsck_err_on true env .FSCK_ERR_YES a msg flags).outcome = Outcome.Fixed ∧
    (mustfix_fsck_err_on true .user .FSCK_ERR_NO a msg flags).result
        = Except.error BCH_FSCK_ERRORS_NOT_FIXED ∧
    (mustfix_fsck_err_on true .kernel .FSCK_ERR_NO a msg flags).result
        = Except.error BCH_FSCK_ERRORS_NOT_FIXED ∧
    (best_effort_fsck_err_on true env .FSCK_ERR_YES a msg flags).outcome
        = Outcome.Fixed ∧
    (best_effort_fsck_err_on true .user .FSCK_ERR_NO a msg flags).result
        = Except.ok false ∧
    (best_effort_fsck_err_on true .kernel .FSCK_ERR_NO a msg flags).result
        = Except.ok false := by
  refine ⟨rfl, rfl, rfl, rfl, rfl, ?_, ?_, ?_, ?_, ?_, ?_, ?_, ?_, ?_, ?_⟩ <;>
    cases env <;> cases fe <;> cases a <;>
      simp [unfixable_fsck_err_on, need_fsck_err_on, mustfix_fsck_err_on,
        best_effort_fsck_err_on, fsck_err_on, fsck_err, fsck_err_should_fix,
        fsck_err_opts.toNat, FsckErrResult.outcome]

/-- C5: the BCH_FS_FSCK_FIXED_ERRORS flag after a negotiation is the old
flag value or-ed with the fix decision, so starting from a clear flag the
negotiation sets it exactly when its outcome is Fixed; and with fixable
false the outcome is never Fixed and the flag is never set. -/
theorem C5_fixed_errors_flag (env : Env) (fe : fsck_err_opts)
    (a can_fix ci : Bool) (nofix msg : String) (flags : bch_fs_flags) :
    (fsck_err env fe a can_fix ci nofix msg flags).flags.fsck_fixed_errors
        = (flags.fsck_fixed_errors
            || (fsck_err env fe a can_fix ci nofix msg flags).fixed) ∧
    ((fsck_err env fe a can_fix ci nofix msg ⟨false⟩).flags.fsck_fixed_errors = true
        ↔ (fsck_err env fe a can_fix ci nofix msg ⟨false⟩).outcome = Outcome.Fixed) ∧
    (fsck_err env fe a false ci nofix msg flags).outcome = Outcome.NotFixed ∧
    (fsck_err env fe a false ci nofix msg ⟨false⟩).flags.fsck_fixed_errors = false := by
  refine ⟨?_, ?_, ?_, ?_⟩ <;>
    cases env <;> cases fe <;> cases a <;> cases can_fix <;> cases ci <;>
      simp [fsck_err, fsck_err_should_fix, fsck_err_opts.toNat, FsckErrResult.outcome]

/-- C6: the device-scoped fatal report bch2_dev_fatal_error marks fatal
the filesystem named c at the CALL SITE, not the filesystem owning the
device: with a device owned by filesystem 1 and a call-site variable c
denoting filesystem 2, the message is emitted but filesystem 2 is marked
fatal while owner 1 is not.  The sibling bch2_dev_fatal_io_error does
cascade to the owning filesystem as the claim states. -/
theorem C6_dev_fatal_error_wrong_scope :
    (bch2_dev_fatal_error ⟨1, "dev1"⟩ 2 "m" []).1 = ["m"] ∧
    (bch2_dev_fatal_error ⟨1, "dev1"⟩ 2 "m" []).2 = [2] ∧
    (1 : Nat) ∉ (bch2_dev_fatal_error ⟨1, "dev1"⟩ 2 "m" []).2 ∧
    (bch2_dev_fatal_io_error true ⟨1, "dev1"⟩ "m" []).2 = [1] := by
  decide

/-- C7: the LogicBug report emits exactly one message and terminates the
process (control never returns); the condition-guarded form with a true
condition behaves identically. -/
theorem C7_logic_bug_terminates (msg : String) :
    (bch2_fs_bug msg).log = [msg] ∧
    (bch2_fs_bug msg).log.length = 1 ∧
    (bch2_fs_bug msg).terminated = true ∧
    bch2_fs_bug_on true msg = bch2_fs_bug msg ∧
    (bch2_fs_bug_on true msg).log.length = 1 ∧
    (bch2_fs_bug_on true msg).terminated = true :=
  ⟨rfl, rfl, rfl, rfl, rfl, rfl⟩

theorem runNonfatalReports_updates (ca : bch_dev) (reports : List (Bool × String))
    (d : bch_dev_state) :
    (runNonfatalReports ca reports d).2.degraded_updates
        = d.degraded_updates + reports.length := by
  induction reports generalizing d with
  | nil => rfl
  | cons hd tl ih =>
    cases hd with
    | mk allow fmt =>
      simp [runNonfatalReports, bch2_dev_nonfatal_io_error, bch2_nonfatal_io_error, ih]
      omega

theorem runNonfatalReports_log_length (ca : bch_dev) (reports : List (Bool × String))
    (d : bch_dev_state) :
    (runNonfatalReports ca reports d).1.length ≤ reports.length := by
  induction reports generalizing d with
  | nil => exact Nat.le_refl 0
  | cons hd tl ih =>
    cases hd with
    | mk allow fmt =>
      cases allow <;>
        simpa [runNonfatalReports, bch2_dev_nonfatal_io_error,
          bch2_nonfatal_io_error, Nat.succ_le_succ_iff] using
          Nat.le_trans (ih _) (by omega)

/-- C8: a sequence of N non-fatal device I/O reports performs exactly N
degraded-state updates, one per invocation, regardless of which log
emissions the rate limiter allows, while at most N messages are logged;
each single invocation updates the device state exactly as
bch2_nonfatal_io_error does, independently of the limiter decision. -/
theorem C8_nonfatal_io_update_count (ca : bch_dev) (reports : List (Bool × String))
    (d : bch_dev_state) :
    (runNonfatalReports ca reports d).2.degraded_updates
        = d.degraded_updates + reports.length ∧
    (runNonfatalReports ca reports d).1.length ≤ reports.length ∧
    (∀ (allow : Bool) (fmt : String),
      (bch2_dev_nonfatal_io_error allow ca fmt d).2 = bch2_nonfatal_io_error d) :=
  ⟨runNonfatalReports_updates ca reports d,
   runNonfatalReports_log_length ca reports d,
   fun _ _ => rfl⟩

/-- C9: with condition false, the guarded negotiator and all four named
condition-guarded modes are complete no-ops: empty log, unchanged flags,
no abort, and the call-site value false. -/
theorem C9_cond_false_noop (env : Env) (fe : fsck_err_opts)
    (a can_fix ci : Bool) (nofix msg : String) (flags : bch_fs_flags) :
    fsck_err_on false env fe a can_fix ci nofix msg flags
        = ⟨[], flags, false, Except.ok false⟩ ∧
    unfixable_fsck_err_on false env fe a msg flags
        = ⟨[], flags, false, Except.ok false⟩ ∧
    need_fsck_err_on false env fe a msg flags
        = ⟨[], flags, false, Except.ok false⟩ ∧
    mustfix_fsck_err_on false env fe a msg flags
        = ⟨[], flags, false, Except.ok false⟩ ∧
    best_effort_fsck_err_on false env fe a msg flags
        = ⟨[], flags, false, Except.ok false⟩ :=
  ⟨rfl, rfl, rfl, rfl, rfl⟩

/-- C10: the value a negotiation evaluates to at its call site is
Except.ok true exactly when the outcome is Fixed, Except.ok false when the
outcome is NotFixed but ignorable (no abort), and the abort branch
otherwise - so whenever a boolean is produced it is true if and only if
the outcome was Fixed; every condition-guarded variant evaluates to false
when the condition is false. -/
theorem C10_call_site_value (env : Env) (fe : fsck_err_opts)
    (a can_fix ci : Bool) (nofix msg : String) (flags : bch_fs_flags) :
    (fsck_err env fe a can_fix ci nofix msg flags).result
        = (if (fsck_err env fe a can_fix ci nofix msg flags).outcome = Outcome.Fixed
           then Except.ok true
           else if ci then Except.ok false
           else Except.error BCH_FSCK_ERRORS_NOT_FIXED) ∧
    (fsck_err_on false env fe a can_fix ci nofix msg flags).result = Except.ok false ∧
    (unfixable_fsck_err_on false env fe a msg flags).result = Except.ok false ∧
    (need_fsck_err_on false env fe a msg flags).result = Except.ok false ∧
    (mustfix_fsck_err_on false env fe a msg flags).result = Except.ok false ∧
    (best_effort_fsck_err_on false env fe a msg flags).result = Except.ok false := by
  refine ⟨?_, rfl, rfl, rfl, rfl, rfl⟩
  cases env <;> cases fe <;> cases a <;> cases can_fix <;> cases ci <;>
    simp [fsck_err, fsck_err_should_fix, fsck_err_opts.toNat, FsckErrResult.outcome]

end BchError
